import Mathlib

/-!
Verification of the filter-and-aggregate query layer of the job-market
dashboard (`src/DashBoard.py`).

The dashboard loads a CSV into a dataframe, filters it by a year range and
two categorical multiselects, and computes four scalar KPIs plus eight
grouped aggregation tables from the filtered frame.  This file gives a
shallow embedding of that layer:

* a `Record` is one row of the dataframe, with the thirteen columns the
  dashboard touches; a dataframe is a `List Record` (order-preserving, may
  contain duplicate rows, exactly like a pandas frame used positionally);
* numeric columns are embedded as `Rat` (`Salary_USD`, `Growth_Rate`,
  `Gender_Diversity_Index`) and `Nat` (`Job_Openings`); `Year` is `Int`;
* `pd.Series.mean()` is `seriesMean`, returning `none` on an empty series
  (pandas returns NaN there, a value distinguishable from every number);
  `pd.Series.sum()` over naturals is `List.sum` (pandas returns 0 on empty);
* `df[mask]` with the conjunctive boolean mask of lines 51–56 is
  `filtered_df`, a pure `List.filter` that keeps the original row order;
* `df.groupby(keys)[col].agg(...)` (with pandas' default `sort=True`) is
  `groupBy`: the distinct observed key tuples in ascending order, each
  paired with the aggregate of exactly the rows having that key;
* `pd.read_csv` under `@st.cache_data` is `load_data`, modelled with an
  explicit cache-and-read-count state `LoadCache` and a source that is
  either readable (`some` raw table) or unreadable (`none`).
-/

/-- One row of the source relation, with the thirteen columns used by the
dashboard (`AIDataset.csv` header fields accessed in `DashBoard.py`). -/
structure Record where
  Year : Int
  Job_Title : String
  Industry : String
  Salary_USD : Rat
  Growth_Rate : Rat
  Job_Openings : Nat
  Gender_Diversity_Index : Rat
  Experience_Level : String
  AI_Adoption_Level : String
  Skill_Complexity : String
  Location : String
  Remote_Work : String
  Company_Size : String
deriving DecidableEq, Repr

/-- The user-selected constraints: the slider's year range and the two
multiselect selections (lines 29–48 of `DashBoard.py`). -/
structure FilterState where
  year_min : Int
  year_max : Int
  selected_job_titles : List String
  selected_industries : List String
deriving DecidableEq, Repr

/-- The boolean mask of lines 51–55: `df['Year'].between(lo, hi)` (inclusive
on both ends) AND `df['Job_Title'].isin(job_cats)` AND
`df['Industry'].isin(industries)`. -/
def rowMask (fs : FilterState) (r : Record) : Bool :=
  decide (fs.year_min ≤ r.Year) && decide (r.Year ≤ fs.year_max) &&
    decide (r.Job_Title ∈ fs.selected_job_titles) &&
    decide (r.Industry ∈ fs.selected_industries)

/-- Line 56: `filtered_df = df[mask]` — the subsequence of rows whose mask
entry is true, in the original order, the frame itself untouched. -/
def filtered_df (df : List Record) (fs : FilterState) : List Record :=
  df.filter (rowMask fs)

/-- `pd.Series.mean()`: the arithmetic mean of the series, undefined (NaN in
pandas, `none` here) when the series is empty. -/
def seriesMean (xs : List Rat) : Option Rat :=
  if xs = [] then none else some (xs.sum / (xs.length : Rat))

/-- Line 62: `filtered_df['Salary_USD'].mean()`. -/
def avg_salary (rows : List Record) : Option Rat :=
  seriesMean (rows.map Record.Salary_USD)

/-- Line 66: `filtered_df['Growth_Rate'].mean()`. -/
def avg_growth (rows : List Record) : Option Rat :=
  seriesMean (rows.map Record.Growth_Rate)

/-- Line 70: `filtered_df['Job_Openings'].sum()` (0 on an empty frame). -/
def total_openings (rows : List Record) : Nat :=
  (rows.map Record.Job_Openings).sum

/-- Line 74: `filtered_df['Gender_Diversity_Index'].mean()`. -/
def avg_diversity (rows : List Record) : Option Rat :=
  seriesMean (rows.map Record.Gender_Diversity_Index)

/-- The distinct values of a key column in ascending order: pandas
`groupby` with its default `sort=True` lists each observed group key once,
sorted by the key value. -/
def sortedKeys {κ : Type} [LinearOrder κ] [DecidableEq κ] (ks : List κ) :
    List κ :=
  (ks.dedup).insertionSort (fun a b => a ≤ b)

/-- `rows.groupby(key)[·].agg(agg)` as used in the dashboard: one entry per
observed key tuple, in ascending key order, whose value is `agg` applied to
exactly the rows carrying that key (in their original order). -/
def groupBy {κ β : Type} [LinearOrder κ] [DecidableEq κ]
    (key : Record → κ) (agg : List Record → β) (rows : List Record) :
    List (κ × β) :=
  (sortedKeys (rows.map key)).map
    (fun k => (k, agg (rows.filter (fun r => decide (key r = k)))))

/-- Line 83: `filtered_df.groupby(['Year','Job_Title'])['Salary_USD'].mean()`. -/
def salary_trends (rows : List Record) : List (Lex (Int × String) × Option Rat) :=
  groupBy (fun r => toLex (r.Year, r.Job_Title))
    (fun g => seriesMean (g.map Record.Salary_USD)) rows

/-- Line 90: `filtered_df.groupby(['Experience_Level','Job_Title'])['Salary_USD'].mean()`. -/
def salary_exp (rows : List Record) : List (Lex (String × String) × Option Rat) :=
  groupBy (fun r => toLex (r.Experience_Level, r.Job_Title))
    (fun g => seriesMean (g.map Record.Salary_USD)) rows

/-- Line 101: `filtered_df.groupby(['Industry','AI_Adoption_Level']).size()`. -/
def ai_adoption (rows : List Record) : List (Lex (String × String) × Nat) :=
  groupBy (fun r => toLex (r.Industry, r.AI_Adoption_Level))
    (fun g => g.length) rows

/-- Line 108: `filtered_df.groupby(['Job_Title','Skill_Complexity']).size()`. -/
def skill_complex (rows : List Record) : List (Lex (String × String) × Nat) :=
  groupBy (fun r => toLex (r.Job_Title, r.Skill_Complexity))
    (fun g => g.length) rows

/-- Line 119: `filtered_df.groupby(['Location','Job_Title'])['Job_Openings'].sum()`. -/
def location_jobs (rows : List Record) : List (Lex (String × String) × Nat) :=
  groupBy (fun r => toLex (r.Location, r.Job_Title))
    (fun g => (g.map Record.Job_Openings).sum) rows

/-- Line 127: `filtered_df.groupby(['Job_Title','Remote_Work']).size()`. -/
def remote_dist (rows : List Record) : List (Lex (String × String) × Nat) :=
  groupBy (fun r => toLex (r.Job_Title, r.Remote_Work))
    (fun g => g.length) rows

/-- Line 139: `filtered_df.groupby(['Industry'])['Growth_Rate'].mean()`. -/
def growth_industry (rows : List Record) : List (String × Option Rat) :=
  groupBy (fun r => r.Industry)
    (fun g => seriesMean (g.map Record.Growth_Rate)) rows

/-- Line 146: `filtered_df.groupby(['Company_Size','Job_Title']).size()`. -/
def company_dist (rows : List Record) : List (Lex (String × String) × Nat) :=
  groupBy (fun r => toLex (r.Company_Size, r.Job_Title))
    (fun g => g.length) rows

/-- Everything `main` derives from the filtered frame in one pass: the four
KPI scalars, the eight grouped tables, and the raw filtered view of
line 154. -/
structure Outputs where
  avg_salary : Option Rat
  avg_growth : Option Rat
  total_openings : Nat
  avg_diversity : Option Rat
  salary_trends : List (Lex (Int × String) × Option Rat)
  salary_exp : List (Lex (String × String) × Option Rat)
  ai_adoption : List (Lex (String × String) × Nat)
  skill_complex : List (Lex (String × String) × Nat)
  location_jobs : List (Lex (String × String) × Nat)
  remote_dist : List (Lex (String × String) × Nat)
  growth_industry : List (String × Option Rat)
  company_dist : List (Lex (String × String) × Nat)
  raw : List Record
deriving DecidableEq

/-- All outputs computed from one snapshot of rows. -/
def outputs_of (rows : List Record) : Outputs :=
  { avg_salary := avg_salary rows
    avg_growth := avg_growth rows
    total_openings := total_openings rows
    avg_diversity := avg_diversity rows
    salary_trends := salary_trends rows
    salary_exp := salary_exp rows
    ai_adoption := ai_adoption rows
    skill_complex := skill_complex rows
    location_jobs := location_jobs rows
    remote_dist := remote_dist rows
    growth_industry := growth_industry rows
    company_dist := company_dist rows
    raw := rows }

/-- One recomputation pass of `main` (lines 51–154): filter once, then
derive every KPI and table from that single filtered snapshot. -/
def main_outputs (df : List Record) (fs : FilterState) : Outputs :=
  outputs_of (filtered_df df fs)

/-- `int(series.min())` on a nonempty integer column: a left fold of `min`
over the column (the `[]` case is junk, never reached by the dashboard). -/
def colMin (xs : List Int) : Int :=
  match xs with
  | [] => 0
  | x :: rest => rest.foldl min x

/-- `int(series.max())` on a nonempty integer column. -/
def colMax (xs : List Int) : Int :=
  match xs with
  | [] => 0
  | x :: rest => rest.foldl max x

/-- `series.unique()`: the distinct values in order of first occurrence
(`List.dedup` keeps last occurrences, so dedup the reversal and flip back). -/
def unique (xs : List String) : List String :=
  xs.reverse.dedup.reverse

/-- The widget defaults of lines 29–48: the slider spans the observed
min/max `Year`, and both multiselects default to every observed value of
their column. -/
def defaultFilterState (df : List Record) : FilterState :=
  { year_min := colMin (df.map Record.Year)
    year_max := colMax (df.map Record.Year)
    selected_job_titles := unique (df.map Record.Job_Title)
    selected_industries := unique (df.map Record.Industry) }

/-- A parsed delimited text file: a header row naming the columns, and the
data rows. -/
structure RawTable where
  header : List String
  rows : List (List String)
deriving DecidableEq, Repr

/-- The thirteen fields of the schema that the dashboard accesses. -/
def requiredColumns : List String :=
  ["Year", "Job_Title", "Industry", "Salary_USD", "Growth_Rate",
   "Job_Openings", "Gender_Diversity_Index", "Experience_Level",
   "AI_Adoption_Level", "Skill_Complexity", "Location", "Remote_Work",
   "Company_Size"]

/-- `pd.read_csv('AIDataset.csv')` (line 14): raises when the source is
unreadable, and otherwise returns the parsed table as is — `read_csv`
performs no validation of which columns the header contains.  The source is
`none` when unreadable. -/
def read_csv (source : Option RawTable) : Except String RawTable :=
  match source with
  | none => Except.error "LoadError: source unreadable"
  | some t => Except.ok t

/-- The process-wide memoisation state of `@st.cache_data` (line 12):
the cached return value of `load_data`, if any, and how many times the
source has actually been read so far. -/
structure LoadCache where
  cache : Option RawTable
  reads : Nat
deriving DecidableEq, Repr

/-- `load_data()` (lines 12–15) under `@st.cache_data`: a cache hit returns
the cached table without touching the source; a cache miss reads the source
once, caching the result on success (a raised error is not cached). -/
def load_data (source : Option RawTable) (st : LoadCache) :
    Except String RawTable × LoadCache :=
  match st.cache with
  | some t => (Except.ok t, st)
  | none =>
    match read_csv source with
    | Except.ok t => (Except.ok t, { cache := some t, reads := st.reads + 1 })
    | Except.error e => (Except.error e, { cache := none, reads := st.reads + 1 })

/-- A sample row (the first row of the scenario in §8 of the design spec). -/
def r0 : Record :=
  { Year := 2020, Job_Title := "A", Industry := "X", Salary_USD := 100,
    Growth_Rate := 5, Job_Openings := 5, Gender_Diversity_Index := 1/2,
    Experience_Level := "Senior", AI_Adoption_Level := "Low",
    Skill_Complexity := "High", Location := "NY", Remote_Work := "Yes",
    Company_Size := "Large" }

/-- A second sample row (the second row of the §8 scenario). -/
def r1 : Record :=
  { Year := 2021, Job_Title := "B", Industry := "Y", Salary_USD := 200,
    Growth_Rate := 7, Job_Openings := 3, Gender_Diversity_Index := 3/4,
    Experience_Level := "Junior", AI_Adoption_Level := "Medium",
    Skill_Complexity := "Low", Location := "SF", Remote_Work := "No",
    Company_Size := "Small" }

/-- A narrow filter: year 2020 only, job title A, industry X. -/
def fsA : FilterState :=
  { year_min := 2020, year_max := 2020,
    selected_job_titles := ["A"], selected_industries := ["X"] }

/-- A wide filter covering both sample rows. -/
def fsB : FilterState :=
  { year_min := 2020, year_max := 2021,
    selected_job_titles := ["A", "B"], selected_industries := ["X", "Y"] }

/-- A filter whose job-title multiselect has been emptied. -/
def fsEmpty : FilterState :=
  { year_min := 2020, year_max := 2021,
    selected_job_titles := [], selected_industries := ["X", "Y"] }

/-- A readable source whose header lacks the required `Year` column. -/
def badTable : RawTable :=
  { header := ["Job_Title"], rows := [] }

/-- A readable source with the full thirteen-column header. -/
def goodTable : RawTable :=
  { header := requiredColumns, rows := [["2020", "A", "X", "100", "5", "5",
    "0.5", "Senior", "Low", "High", "NY", "Yes", "Large"]] }

lemma mem_sortedKeys {κ : Type} [LinearOrder κ] [DecidableEq κ]
    {ks : List κ} {k : κ} : k ∈ sortedKeys ks ↔ k ∈ ks := by
  unfold sortedKeys
  exact ((List.perm_insertionSort _ _).mem_iff).trans List.mem_dedup

lemma sortedKeys_nodup {κ : Type} [LinearOrder κ] [DecidableEq κ]
    (ks : List κ) : (sortedKeys ks).Nodup :=
  ((List.perm_insertionSort _ _).nodup_iff).2 (List.nodup_dedup ks)

lemma sortedKeys_sorted {κ : Type} [LinearOrder κ] [DecidableEq κ]
    (ks : List κ) : (sortedKeys ks).Sorted (fun a b => a < b) := by
  have hle : (sortedKeys ks).Sorted (fun a b => a ≤ b) :=
    List.sorted_insertionSort _ _
  exact hle.lt_of_le (sortedKeys_nodup ks)

lemma groupBy_keys {κ β : Type} [LinearOrder κ] [DecidableEq κ]
    (key : Record → κ) (agg : List Record → β) (rows : List Record) :
    (groupBy key agg rows).map Prod.fst = sortedKeys (rows.map key) := by
  unfold groupBy
  rw [List.map_map]
  have h : (Prod.fst ∘ fun k =>
      (k, agg (rows.filter (fun r => decide (key r = k))))) = fun k : κ => k :=
    rfl
  rw [h]
  exact List.map_id _

lemma groupBy_keys_sorted {κ β : Type} [LinearOrder κ] [DecidableEq κ]
    (key : Record → κ) (agg : List Record → β) (rows : List Record) :
    ((groupBy key agg rows).map Prod.fst).Sorted (fun a b => a < b) := by
  rw [groupBy_keys]
  exact sortedKeys_sorted _

lemma groupBy_mem_key {κ β : Type} [LinearOrder κ] [DecidableEq κ]
    {key : Record → κ} {agg : List Record → β} {rows : List Record}
    {k : κ} {b : β} (hmem : (k, b) ∈ groupBy key agg rows) :
    ∃ r ∈ rows, key r = k := by
  unfold groupBy at hmem
  rcases List.mem_map.1 hmem with ⟨k', hk', heq⟩
  have hk : k' = k := congrArg Prod.fst heq
  subst hk
  have : k' ∈ rows.map key := mem_sortedKeys.1 hk'
  rcases List.mem_map.1 this with ⟨r, hr, hkey⟩
  exact ⟨r, hr, hkey⟩

lemma groupBy_val {κ β : Type} [LinearOrder κ] [DecidableEq κ]
    {key : Record → κ} {agg : List Record → β} {rows : List Record}
    {k : κ} {b : β} (hmem : (k, b) ∈ groupBy key agg rows) :
    b = agg (rows.filter (fun r => decide (key r = k))) := by
  unfold groupBy at hmem
  rcases List.mem_map.1 hmem with ⟨k', hk', heq⟩
  have hk : k' = k := congrArg Prod.fst heq
  subst hk
  exact (congrArg Prod.snd heq).symm

lemma groupBy_count_pos {κ : Type} [LinearOrder κ] [DecidableEq κ]
    {key : Record → κ} {rows : List Record} {k : κ} {c : Nat}
    (hmem : (k, c) ∈ groupBy key (fun g => g.length) rows) : 1 ≤ c := by
  rcases groupBy_mem_key hmem with ⟨r, hr, hkey⟩
  have hc := groupBy_val hmem
  have hrmem : r ∈ rows.filter (fun r => decide (key r = k)) :=
    List.mem_filter.2 ⟨hr, by simpa using hkey⟩
  have hpos : 0 < (rows.filter (fun r => decide (key r = k))).length :=
    List.length_pos.2 (fun hnil => by simp [hnil] at hrmem)
  omega

lemma foldl_min_le_init (l : List Int) (a : Int) : l.foldl min a ≤ a := by
  induction l generalizing a with
  | nil => simp
  | cons y ys ih => exact le_trans (ih (min a y)) (min_le_left a y)

lemma foldl_min_le_mem (l : List Int) (x : Int) :
    x ∈ l → ∀ a : Int, l.foldl min a ≤ x := by
  induction l with
  | nil => intro hx; cases hx
  | cons y ys ih =>
    intro hx a
    rcases List.mem_cons.1 hx with h | h
    · subst h
      exact le_trans (foldl_min_le_init ys (min a x)) (min_le_right a x)
    · exact ih h (min a y)

lemma init_le_foldl_max (l : List Int) (a : Int) : a ≤ l.foldl max a := by
  induction l generalizing a with
  | nil => simp
  | cons y ys ih => exact le_trans (le_max_left a y) (ih (max a y))

lemma mem_le_foldl_max (l : List Int) (x : Int) :
    x ∈ l → ∀ a : Int, x ≤ l.foldl max a := by
  induction l with
  | nil => intro hx; cases hx
  | cons y ys ih =>
    intro hx a
    rcases List.mem_cons.1 hx with h | h
    · subst h
      exact le_trans (le_max_right a x) (init_le_foldl_max ys (max a x))
    · exact ih h (max a y)

lemma colMin_le {xs : List Int} {x : Int} (hx : x ∈ xs) : colMin xs ≤ x := by
  cases xs with
  | nil => cases hx
  | cons y ys =>
    rcases List.mem_cons.1 hx with h | h
    · subst h
      exact foldl_min_le_init ys x
    · exact foldl_min_le_mem ys x h y

lemma le_colMax {xs : List Int} {x : Int} (hx : x ∈ xs) : x ≤ colMax xs := by
  cases xs with
  | nil => cases hx
  | cons y ys =>
    rcases List.mem_cons.1 hx with h | h
    · subst h
      exact init_le_foldl_max ys x
    · exact mem_le_foldl_max ys x h y

lemma mem_unique {xs : List String} {s : String} : s ∈ unique xs ↔ s ∈ xs := by
  simp [unique, List.mem_reverse, List.mem_dedup]

/-- C1: for every dataset and filter state, a row is in `filtered_df` iff it
is a row of the dataset whose `Year` lies in the inclusive year range, whose
`Job_Title` is among the selected job titles, and whose `Industry` is among
the selected industries — the three conditions conjunctively; a dataset row
outside `filtered_df` therefore violates at least one of them, and the
filter is a pure function of the dataset. -/
theorem filtered_df_mem_iff (df : List Record) (fs : FilterState)
    (r : Record) :
    r ∈ filtered_df df fs ↔
      r ∈ df ∧ (fs.year_min ≤ r.Year ∧ r.Year ≤ fs.year_max) ∧
        r.Job_Title ∈ fs.selected_job_titles ∧
        r.Industry ∈ fs.selected_industries := by
  simp [filtered_df, rowMask, List.mem_filter, and_assoc]

/-- C5: with the default filter state — the year range spanning the observed
minimum and maximum `Year` and both multiselects holding every observed
value of their column — the filtered relation is the dataset itself, row for
row in the original order. -/
theorem default_filter_yields_dataset (df : List Record) (h : df ≠ []) :
    filtered_df df (defaultFilterState df) = df := by
  apply List.filter_eq_self.2
  intro r hr
  simp only [rowMask, defaultFilterState, Bool.and_eq_true, decide_eq_true_eq]
  refine ⟨⟨⟨?_, ?_⟩, ?_⟩, ?_⟩
  · exact colMin_le (List.mem_map_of_mem Record.Year hr)
  · exact le_colMax (List.mem_map_of_mem Record.Year hr)
  · exact mem_unique.2 (List.mem_map_of_mem Record.Job_Title hr)
  · exact mem_unique.2 (List.mem_map_of_mem Record.Industry hr)

/-- Witness for C5 at the two-row §8 dataset. -/
theorem default_filter_yields_dataset_witness :
    ([r0, r1] : List Record) ≠ [] ∧
      filtered_df [r0, r1] (defaultFilterState [r0, r1]) = [r0, r1] :=
  ⟨by decide, default_filter_yields_dataset [r0, r1] (by decide)⟩

/-- C6: widening the year range and/or enlarging the selected sets (with the
remaining dimensions held fixed or also widened) can only grow the filtered
relation: the narrower filter's result is a sublist (hence a subset) of the
wider one's, and its row count never shrinks. -/
theorem filtered_df_monotone (df : List Record) (fs fs' : FilterState)
    (h1 : fs'.year_min ≤ fs.year_min) (h2 : fs.year_max ≤ fs'.year_max)
    (h3 : ∀ s, s ∈ fs.selected_job_titles → s ∈ fs'.selected_job_titles)
    (h4 : ∀ s, s ∈ fs.selected_industries → s ∈ fs'.selected_industries) :
    (filtered_df df fs).Sublist (filtered_df df fs') ∧
      (∀ r, r ∈ filtered_df df fs → r ∈ filtered_df df fs') ∧
      (filtered_df df fs).length ≤ (filtered_df df fs').length := by
  have himp : ∀ r : Record, rowMask fs r = true → rowMask fs' r = true := by
    intro r hr
    simp only [rowMask, Bool.and_eq_true, decide_eq_true_eq] at hr ⊢
    exact ⟨⟨⟨le_trans h1 hr.1.1.1, le_trans hr.1.1.2 h2⟩, h3 _ hr.1.2⟩,
      h4 _ hr.2⟩
  have hsub : (filtered_df df fs).Sublist (filtered_df df fs') :=
    List.monotone_filter_right df himp
  exact ⟨hsub, fun r hr => hsub.subset hr, hsub.length_le⟩

/-- Witness for C6: the narrow filter against the wide one on the §8 data. -/
theorem filtered_df_monotone_witness :
    (filtered_df [r0, r1] fsA).Sublist (filtered_df [r0, r1] fsB) ∧
      (∀ r, r ∈ filtered_df [r0, r1] fsA → r ∈ filtered_df [r0, r1] fsB) ∧
      (filtered_df [r0, r1] fsA).length ≤ (filtered_df [r0, r1] fsB).length :=
  filtered_df_monotone [r0, r1] fsA fsB (by decide) (by decide)
    (by intro s hs; simp only [fsA, fsB, List.mem_cons, List.mem_singleton,
      List.not_mem_nil, or_false] at hs ⊢; exact Or.inl hs)
    (by intro s hs; simp only [fsA, fsB, List.mem_cons, List.mem_singleton,
      List.not_mem_nil, or_false] at hs ⊢; exact Or.inl hs)

/-- C9: selecting a job title that never occurs in the dataset (or an
industry that never occurs) changes nothing: the filtered relation, and with
it every KPI and every aggregation table of the recomputation pass, is the
same as without that selection. -/
theorem filtered_df_ignores_unobserved (df : List Record) (fs : FilterState)
    (s t : String) (hs : s ∉ df.map Record.Job_Title)
    (ht : t ∉ df.map Record.Industry) :
    filtered_df df { fs with selected_job_titles := s :: fs.selected_job_titles } =
      filtered_df df fs ∧
    filtered_df df { fs with selected_industries := t :: fs.selected_industries } =
      filtered_df df fs ∧
    main_outputs df { fs with selected_job_titles := s :: fs.selected_job_titles } =
      main_outputs df fs ∧
    main_outputs df { fs with selected_industries := t :: fs.selected_industries } =
      main_outputs df fs := by
  have hjob : filtered_df df
      { fs with selected_job_titles := s :: fs.selected_job_titles } =
      filtered_df df fs := by
    apply List.filter_congr
    intro r hr
    have hne : r.Job_Title ≠ s :=
      fun he => hs (he ▸ List.mem_map_of_mem Record.Job_Title hr)
    simp [rowMask, List.mem_cons, hne]
  have hind : filtered_df df
      { fs with selected_industries := t :: fs.selected_industries } =
      filtered_df df fs := by
    apply List.filter_congr
    intro r hr
    have hne : r.Industry ≠ t :=
      fun he => ht (he ▸ List.mem_map_of_mem Record.Industry hr)
    simp [rowMask, List.mem_cons, hne]
  refine ⟨hjob, hind, ?_, ?_⟩
  · simp only [main_outputs, hjob]
  · simp only [main_outputs, hind]

/-- Witness for C9: adding the unobserved job title Z and industry W to the
wide filter over the §8 dataset. -/
theorem filtered_df_ignores_unobserved_witness :
    filtered_df [r0, r1] { fsB with selected_job_titles := "Z" :: fsB.selected_job_titles } =
      filtered_df [r0, r1] fsB ∧
    filtered_df [r0, r1] { fsB with selected_industries := "W" :: fsB.selected_industries } =
      filtered_df [r0, r1] fsB ∧
    main_outputs [r0, r1] { fsB with selected_job_titles := "Z" :: fsB.selected_job_titles } =
      main_outputs [r0, r1] fsB ∧
    main_outputs [r0, r1] { fsB with selected_industries := "W" :: fsB.selected_industries } =
      main_outputs [r0, r1] fsB :=
  filtered_df_ignores_unobserved [r0, r1] fsB "Z" "W" (by decide) (by decide)

/-- C2: an emptied job-title multiselect empties the filtered relation, on
which the summed KPI and all count/sum tables are zero (the grouped tables
have no entries at all), while each of the three mean-based KPIs is the
distinguishable undefined value `none` — not `some 0` and not a raised
error, since every operation is total. -/
theorem empty_selection_degrades (df : List Record) (fs : FilterState)
    (h : fs.selected_job_titles = []) :
    filtered_df df fs = [] ∧
      (main_outputs df fs).raw = [] ∧
      (main_outputs df fs).total_openings = 0 ∧
      (main_outputs df fs).salary_trends = [] ∧
      (main_outputs df fs).salary_exp = [] ∧
      (main_outputs df fs).ai_adoption = [] ∧
      (main_outputs df fs).skill_complex = [] ∧
      (main_outputs df fs).location_jobs = [] ∧
      (main_outputs df fs).remote_dist = [] ∧
      (main_outputs df fs).growth_industry = [] ∧
      (main_outputs df fs).company_dist = [] ∧
      (main_outputs df fs).avg_salary = none ∧
      (main_outputs df fs).avg_growth = none ∧
      (main_outputs df fs).avg_diversity = none ∧
      (main_outputs df fs).avg_salary ≠ some 0 ∧
      (main_outputs df fs).avg_growth ≠ some 0 ∧
      (main_outputs df fs).avg_diversity ≠ some 0 := by
  have hnil : filtered_df df fs = [] := by
    apply List.filter_eq_nil_iff.2
    intro r hr
    simp [rowMask, h]
  have e : main_outputs df fs = outputs_of [] := by
    unfold main_outputs
    rw [hnil]
  rw [e, hnil]
  refine ⟨rfl, rfl, rfl, rfl, rfl, rfl, rfl, rfl, rfl, rfl, rfl, rfl, rfl,
    rfl, ?_, ?_, ?_⟩ <;>
    simp [outputs_of, avg_salary, avg_growth, avg_diversity, seriesMean]

/-- Witness for C2 at the emptied selection over the §8 dataset. -/
theorem empty_selection_degrades_witness :
    fsEmpty.selected_job_titles = [] ∧
      filtered_df [r0, r1] fsEmpty = [] ∧
      (main_outputs [r0, r1] fsEmpty).avg_salary = none ∧
      (main_outputs [r0, r1] fsEmpty).total_openings = 0 :=
  ⟨rfl, (empty_selection_degrades [r0, r1] fsEmpty rfl).1,
    (empty_selection_degrades [r0, r1] fsEmpty rfl).2.2.2.2.2.2.2.2.2.2.2.1,
    (empty_selection_degrades [r0, r1] fsEmpty rfl).2.2.1⟩

/-- C7: on a non-empty filtered relation the four KPI scalars are exactly
the arithmetic mean of `Salary_USD`, the arithmetic mean of `Growth_Rate`,
the sum of `Job_Openings`, and the arithmetic mean of
`Gender_Diversity_Index`, each taken over precisely the filtered rows. -/
theorem kpi_formulas (df : List Record) (fs : FilterState)
    (h : filtered_df df fs ≠ []) :
    (main_outputs df fs).avg_salary =
      some (((filtered_df df fs).map Record.Salary_USD).sum /
        ((filtered_df df fs).length : Rat)) ∧
    (main_outputs df fs).avg_growth =
      some (((filtered_df df fs).map Record.Growth_Rate).sum /
        ((filtered_df df fs).length : Rat)) ∧
    (main_outputs df fs).total_openings =
      ((filtered_df df fs).map Record.Job_Openings).sum ∧
    (main_outputs df fs).avg_diversity =
      some (((filtered_df df fs).map Record.Gender_Diversity_Index).sum /
        ((filtered_df df fs).length : Rat)) := by
  have hm : ∀ f : Record → Rat, (filtered_df df fs).map f ≠ [] :=
    fun f he => h (List.map_eq_nil_iff.1 he)
  refine ⟨?_, ?_, rfl, ?_⟩ <;>
    simp [main_outputs, outputs_of, avg_salary, avg_growth, avg_diversity,
      seriesMean, hm, List.length_map]

/-- Witness for C7: the wide filter keeps both §8 rows, so the KPIs are the
means and the sum over those two rows. -/
theorem kpi_formulas_witness :
    filtered_df [r0, r1] fsB ≠ [] ∧
      (main_outputs [r0, r1] fsB).avg_salary =
        some (((filtered_df [r0, r1] fsB).map Record.Salary_USD).sum /
          ((filtered_df [r0, r1] fsB).length : Rat)) :=
  ⟨by decide, (kpi_formulas [r0, r1] fsB (by decide)).1⟩

/-- C4: one recomputation pass is deterministic — recomputing from the same
dataset and filter state gives the same outputs — and within every grouped
table the grouping keys appear in a fixed order that is a function of the
key values alone: strictly ascending. -/
theorem recompute_deterministic (df : List Record) (fs : FilterState) :
    main_outputs df fs = main_outputs df fs ∧
      ((main_outputs df fs).salary_trends.map Prod.fst).Sorted (fun a b => a < b) ∧
      ((main_outputs df fs).salary_exp.map Prod.fst).Sorted (fun a b => a < b) ∧
      ((main_outputs df fs).ai_adoption.map Prod.fst).Sorted (fun a b => a < b) ∧
      ((main_outputs df fs).skill_complex.map Prod.fst).Sorted (fun a b => a < b) ∧
      ((main_outputs df fs).location_jobs.map Prod.fst).Sorted (fun a b => a < b) ∧
      ((main_outputs df fs).remote_dist.map Prod.fst).Sorted (fun a b => a < b) ∧
      ((main_outputs df fs).growth_industry.map Prod.fst).Sorted (fun a b => a < b) ∧
      ((main_outputs df fs).company_dist.map Prod.fst).Sorted (fun a b => a < b) :=
  ⟨rfl,
    groupBy_keys_sorted (fun r => toLex (r.Year, r.Job_Title))
      (fun g => seriesMean (g.map Record.Salary_USD)) (filtered_df df fs),
    groupBy_keys_sorted (fun r => toLex (r.Experience_Level, r.Job_Title))
      (fun g => seriesMean (g.map Record.Salary_USD)) (filtered_df df fs),
    groupBy_keys_sorted (fun r => toLex (r.Industry, r.AI_Adoption_Level))
      (fun g => g.length) (filtered_df df fs),
    groupBy_keys_sorted (fun r => toLex (r.Job_Title, r.Skill_Complexity))
      (fun g => g.length) (filtered_df df fs),
    groupBy_keys_sorted (fun r => toLex (r.Location, r.Job_Title))
      (fun g => (g.map Record.Job_Openings).sum) (filtered_df df fs),
    groupBy_keys_sorted (fun r => toLex (r.Job_Title, r.Remote_Work))
      (fun g => g.length) (filtered_df df fs),
    groupBy_keys_sorted (fun r => r.Industry)
      (fun g => seriesMean (g.map Record.Growth_Rate)) (filtered_df df fs),
    groupBy_keys_sorted (fun r => toLex (r.Company_Size, r.Job_Title))
      (fun g => g.length) (filtered_df df fs)⟩

/-- C8: the eight grouped tables are exactly the eight named aggregations —
mean salary by year and job title, mean salary by experience level and job
title, row counts by industry and AI-adoption level, by job title and skill
complexity, summed openings by location and job title, row counts by job
title and remote-work status, mean growth rate by industry, and row counts
by company size and job title — every one computed from the single filtered
snapshot `filtered_df df fs` of the one filter state `fs`. -/
theorem tables_from_snapshot (df : List Record) (fs : FilterState) :
    (main_outputs df fs).salary_trends =
      groupBy (fun r => toLex (r.Year, r.Job_Title))
        (fun g => seriesMean (g.map Record.Salary_USD)) (filtered_df df fs) ∧
    (main_outputs df fs).salary_exp =
      groupBy (fun r => toLex (r.Experience_Level, r.Job_Title))
        (fun g => seriesMean (g.map Record.Salary_USD)) (filtered_df df fs) ∧
    (main_outputs df fs).ai_adoption =
      groupBy (fun r => toLex (r.Industry, r.AI_Adoption_Level))
        (fun g => g.length) (filtered_df df fs) ∧
    (main_outputs df fs).skill_complex =
      groupBy (fun r => toLex (r.Job_Title, r.Skill_Complexity))
        (fun g => g.length) (filtered_df df fs) ∧
    (main_outputs df fs).location_jobs =
      groupBy (fun r => toLex (r.Location, r.Job_Title))
        (fun g => (g.map Record.Job_Openings).sum) (filtered_df df fs) ∧
    (main_outputs df fs).remote_dist =
      groupBy (fun r => toLex (r.Job_Title, r.Remote_Work))
        (fun g => g.length) (filtered_df df fs) ∧
    (main_outputs df fs).growth_industry =
      groupBy (fun r => r.Industry)
        (fun g => seriesMean (g.map Record.Growth_Rate)) (filtered_df df fs) ∧
    (main_outputs df fs).company_dist =
      groupBy (fun r => toLex (r.Company_Size, r.Job_Title))
        (fun g => g.length) (filtered_df df fs) :=
  ⟨rfl, rfl, rfl, rfl, rfl, rfl, rfl, rfl⟩

/-- C10: every key tuple appearing in any grouped table is the key of at
least one row of the filtered relation — no table has entries for
unobserved key combinations — and consequently every value of the four
count tables is at least 1. -/
theorem group_keys_observed (df : List Record) (fs : FilterState) :
    (∀ k b, (k, b) ∈ (main_outputs df fs).salary_trends →
      ∃ r ∈ filtered_df df fs, toLex (r.Year, r.Job_Title) = k) ∧
    (∀ k b, (k, b) ∈ (main_outputs df fs).salary_exp →
      ∃ r ∈ filtered_df df fs, toLex (r.Experience_Level, r.Job_Title) = k) ∧
    (∀ k b, (k, b) ∈ (main_outputs df fs).ai_adoption →
      ∃ r ∈ filtered_df df fs, toLex (r.Industry, r.AI_Adoption_Level) = k) ∧
    (∀ k b, (k, b) ∈ (main_outputs df fs).skill_complex →
      ∃ r ∈ filtered_df df fs, toLex (r.Job_Title, r.Skill_Complexity) = k) ∧
    (∀ k b, (k, b) ∈ (main_outputs df fs).location_jobs →
      ∃ r ∈ filtered_df df fs, toLex (r.Location, r.Job_Title) = k) ∧
    (∀ k b, (k, b) ∈ (main_outputs df fs).remote_dist →
      ∃ r ∈ filtered_df df fs, toLex (r.Job_Title, r.Remote_Work) = k) ∧
    (∀ k b, (k, b) ∈ (main_outputs df fs).growth_industry →
      ∃ r ∈ filtered_df df fs, r.Industry = k) ∧
    (∀ k b, (k, b) ∈ (main_outputs df fs).company_dist →
      ∃ r ∈ filtered_df df fs, toLex (r.Company_Size, r.Job_Title) = k) ∧
    (∀ k c, (k, c) ∈ (main_outputs df fs).ai_adoption → 1 ≤ c) ∧
    (∀ k c, (k, c) ∈ (main_outputs df fs).skill_complex → 1 ≤ c) ∧
    (∀ k c, (k, c) ∈ (main_outputs df fs).remote_dist → 1 ≤ c) ∧
    (∀ k c, (k, c) ∈ (main_outputs df fs).company_dist → 1 ≤ c) :=
  ⟨fun k b hmem => by
      have hmem' : (k, b) ∈ groupBy (fun r => toLex (r.Year, r.Job_Title))
          (fun g => seriesMean (g.map Record.Salary_USD))
          (filtered_df df fs) := hmem
      exact groupBy_mem_key hmem',
    fun k b hmem => by
      have hmem' : (k, b) ∈ groupBy
          (fun r => toLex (r.Experience_Level, r.Job_Title))
          (fun g => seriesMean (g.map Record.Salary_USD))
          (filtered_df df fs) := hmem
      exact groupBy_mem_key hmem',
    fun k b hmem => by
      have hmem' : (k, b) ∈ groupBy
          (fun r => toLex (r.Industry, r.AI_Adoption_Level))
          (fun g => g.length) (filtered_df df fs) := hmem
      exact groupBy_mem_key hmem',
    fun k b hmem => by
      have hmem' : (k, b) ∈ groupBy
          (fun r => toLex (r.Job_Title, r.Skill_Complexity))
          (fun g => g.length) (filtered_df df fs) := hmem
      exact groupBy_mem_key hmem',
    fun k b hmem => by
      have hmem' : (k, b) ∈ groupBy (fun r => toLex (r.Location, r.Job_Title))
          (fun g => (g.map Record.Job_Openings).sum)
          (filtered_df df fs) := hmem
      exact groupBy_mem_key hmem',
    fun k b hmem => by
      have hmem' : (k, b) ∈ groupBy (fun r => toLex (r.Job_Title, r.Remote_Work))
          (fun g => g.length) (filtered_df df fs) := hmem
      exact groupBy_mem_key hmem',
    fun k b hmem => by
      have hmem' : (k, b) ∈ groupBy (fun r => r.Industry)
          (fun g => seriesMean (g.map Record.Growth_Rate))
          (filtered_df df fs) := hmem
      exact groupBy_mem_key hmem',
    fun k b hmem => by
      have hmem' : (k, b) ∈ groupBy (fun r => toLex (r.Company_Size, r.Job_Title))
          (fun g => g.length) (filtered_df df fs) := hmem
      exact groupBy_mem_key hmem',
    fun _ _ hmem => groupBy_count_pos hmem,
    fun _ _ hmem => groupBy_count_pos hmem,
    fun _ _ hmem => groupBy_count_pos hmem,
    fun _ _ hmem => groupBy_count_pos hmem⟩

/-- Witness for C10: the entry of the industry/AI-adoption count table at
key (X, Low) over the §8 data comes from an actual filtered row, and its
count is at least 1. -/
theorem group_keys_observed_witness :
    (∃ r ∈ filtered_df [r0, r1] fsA,
      toLex (r.Industry, r.AI_Adoption_Level) = toLex ("X", "Low")) ∧
      (1 : Nat) ≤ 1 :=
  ⟨(group_keys_observed [r0, r1] fsA).2.2.1 (toLex ("X", "Low")) 1 (by decide),
    (group_keys_observed [r0, r1] fsA).2.2.2.2.2.2.2.2.1
      (toLex ("X", "Low")) 1 (by decide)⟩

/-- C3 counterexample: a readable source whose header lacks the required
column `Year` is loaded successfully — `load_data` performs no schema
validation, so the claim that it fails on a missing required column is
false. -/
theorem load_data_missing_column_loads :
    (load_data (some badTable) { cache := none, reads := 0 }).1 =
      Except.ok badTable ∧
     "Year" ∈ requiredColumns ∧ "Year" ∉ badTable.header :=
  ⟨rfl, by decide, by decide⟩

/-- C3 (amended): `load_data` returns the cached table untouched on a cache
hit; on a cache miss it fails exactly when the source is unreadable; on a
readable source it reads once, caches, and a repeated call returns the very
same table with no further read — but it accepts any readable source
regardless of which columns the header contains. -/
theorem load_data_cache_and_no_validation (source : Option RawTable)
    (st : LoadCache) :
    (∀ t, st.cache = some t → load_data source st = (Except.ok t, st)) ∧
    (st.cache = none → source = none →
      load_data source st = (Except.error "LoadError: source unreadable",
        { cache := none, reads := st.reads + 1 })) ∧
    (∀ t, st.cache = none → source = some t →
      load_data source st =
        (Except.ok t, { cache := some t, reads := st.reads + 1 }) ∧
      load_data source { cache := some t, reads := st.reads + 1 } =
        (Except.ok t, { cache := some t, reads := st.reads + 1 })) := by
  obtain ⟨c, n⟩ := st
  refine ⟨?_, ?_, ?_⟩
  · intro t hc
    have hc' : c = some t := hc
    subst hc'
    rfl
  · intro hc hsrc
    have hc' : c = none := hc
    subst hc'
    subst hsrc
    rfl
  · intro t hc hsrc
    have hc' : c = none := hc
    subst hc'
    subst hsrc
    exact ⟨rfl, rfl⟩

/-- Witness for amended C3: loading the well-formed source from a fresh
cache reads it once, and the repeated call returns the same table without
another read. -/
theorem load_data_cache_witness :
    ({ cache := none, reads := 0 } : LoadCache).cache = none ∧
      load_data (some goodTable) { cache := none, reads := 0 } =
        (Except.ok goodTable, { cache := some goodTable, reads := 1 }) ∧
      load_data (some goodTable) { cache := some goodTable, reads := 1 } =
        (Except.ok goodTable, { cache := some goodTable, reads := 1 }) :=
  ⟨rfl, ((load_data_cache_and_no_validation (some goodTable)
      { cache := none, reads := 0 }).2.2 goodTable rfl rfl).1,
    ((load_data_cache_and_no_validation (some goodTable)
      { cache := none, reads := 0 }).2.2 goodTable rfl rfl).2⟩
